import Mathlib

/-!
Verification of the session log reconciliation logic of `exptools2`
(`src/exptools2/session.py` and `src/exptools2/utils.py`).

The embedding models:
  * the event log accumulated in `Session.log` (a dict of parallel lists,
    one entry per logged event);
  * the data transform performed by `Session.close` (lines 186-209 of
    `session.py`): computing `dur_last_phase`, the `onset_abs` column, the
    back-filled `duration` and `nr_frames` columns for non-response rows,
    and the resulting table that `to_csv` writes;
  * the settings merge step of `Session._load_settings` (lines 87-97);
  * the engine dispatch of `save_experiment` (`utils.py` lines 25-31).

Timestamps are embedded as rationals (exact arithmetic stands in for the
float arithmetic of the source, which the spec describes as exact up to
floating-point representation). Python exceptions are embedded as an
`Except` error value; a run that raises before the `to_csv` call produces
no output table.
-/

/-- One logged event: one index position of the parallel lists in
`Session.log` (`trial_nr`, `onset`, `event_type`, `phase`, `response`,
`nr_frames`). -/
structure Event where
  trial_nr : Int
  onset : ℚ
  event_type : String
  phase : Int
  response : String
  nr_frames : Int
deriving Repr, DecidableEq, Inhabited

/-- One row of the finalized table written by `Session.close`: the original
columns plus the derived `onset_abs` and `duration` columns. `duration` is
`none` where the DataFrame keeps `np.nan` (the null marker). -/
structure Row where
  trial_nr : Int
  onset : ℚ
  event_type : String
  phase : Int
  response : String
  nr_frames : Int
  onset_abs : ℚ
  duration : Option ℚ
deriving Repr, DecidableEq, Inhabited

/-- Python exceptions reachable in the embedded code. `indexError` is raised
by the list indexing `self.log[...][-1]` on an empty list (line 186),
`valueError` by a length-mismatched pandas `.loc` assignment and by
`save_experiment` on an unrecognized engine, `typeError` by subscripting
`None` and by `pickle.dump` writing bytes into a text-mode file (utils.py
lines 26-27), `keyError` by a dict subscript on a missing key. `emptyLogError` is modelled from the spec: the
error taxonomy of the spec names an `EmptyLogError` class, but no such class
exists anywhere in the source; the constructor exists only so that the
claim naming it can be stated and compared with what the code raises. -/
inductive PyExc where
  | indexError
  | valueError
  | typeError
  | keyError
  | emptyLogError
deriving Repr, DecidableEq

/-- The boolean mask `nonresp_idx` of line 199, comparing `event_type`
against the string "response", per event. -/
def isNonResp (e : Event) : Bool := decide (e.event_type ≠ "response")

/-- The same mask read off a finalized row. -/
def isNonRespRow (r : Row) : Bool := decide (r.event_type ≠ "response")

/-- `Series.diff().values[1:]` on a list of onsets: the forward differences,
with the leading `NaN` of `diff` dropped. For a list of length `m` the result
has length `m - 1`. -/
def diffDrop (xs : List ℚ) : List ℚ :=
  List.zipWith (fun a b => b - a) xs (xs.drop 1)

/-- Building the finalized rows: each event becomes a row with
`onset_abs = onset + exp_start`; the rows selected by `nonresp_idx` consume,
in order, one entry each of `durs` (the `durations` array of line 200) and
`frs` (the `nr_frames` array of line 204); rows not selected keep
`duration = NaN` (here `none`) and their logged `nr_frames`. The `headD`
fallback is unreachable: `closeLog` only calls this after the pandas length
checks have ensured `durs` and `frs` have exactly as many entries as there
are selected rows. -/
def assignRows (exp_start : ℚ) : List Event → List ℚ → List Int → List Row
  | [], _, _ => []
  | e :: rest, durs, frs =>
    if isNonResp e then
      { trial_nr := e.trial_nr, onset := e.onset, event_type := e.event_type,
        phase := e.phase, response := e.response,
        nr_frames := frs.headD e.nr_frames,
        onset_abs := e.onset + exp_start,
        duration := durs.head? } :: assignRows exp_start rest (durs.drop 1) (frs.drop 1)
    else
      { trial_nr := e.trial_nr, onset := e.onset, event_type := e.event_type,
        phase := e.phase, response := e.response,
        nr_frames := e.nr_frames,
        onset_abs := e.onset + exp_start,
        duration := none } :: assignRows exp_start rest durs frs

/-- The data transform of `Session.close` (session.py lines 186-209),
producing the table that `self.log.to_csv` writes, or the Python exception
that aborts the close before the write:
  * line 186: `dur_last_phase = self.exp_stop - self.log[...][-1]` raises
    `IndexError` when the log is empty;
  * line 195: `onset_abs = onset + exp_start` for every row;
  * lines 198-201: `duration` is `NaN` everywhere, then the non-response
    rows receive `np.append(diff(nonresp onsets)[1:], dur_last_phase)`; a
    pandas `.loc` assignment with a mismatched length raises `ValueError`;
  * lines 204-205: the non-response rows receive
    `np.append(nonresp nr_frames[1:], self.nr_frames)` where
    `live_nr_frames` is the live frame counter `self.nr_frames` sampled at
    close time. -/
def closeLog (evs : List Event) (exp_start exp_stop : ℚ) (live_nr_frames : Int) :
    Except PyExc (List Row) :=
  match evs.getLast? with
  | none => Except.error PyExc.indexError
  | some lastEv =>
    let dur_last_phase := exp_stop - lastEv.onset
    let nonresp := evs.filter isNonResp
    let durations := diffDrop (nonresp.map Event.onset) ++ [dur_last_phase]
    let frames := (nonresp.map Event.nr_frames).drop 1 ++ [live_nr_frames]
    if durations.length = nonresp.length then
      if frames.length = nonresp.length then
        Except.ok (assignRows exp_start evs durations frames)
      else Except.error PyExc.valueError
    else Except.error PyExc.valueError

/-- Python dict shallow update, the in-place effect of
`default_settings.update(user_settings)`: every key of the receiver keeps its
position with its value replaced when the argument has that key, and keys
only in the argument are appended in order. -/
def dictUpdate (d u : List (String × String)) : List (String × String) :=
  (d.map (fun kv =>
    match u.lookup kv.1 with
    | some v => (kv.1, v)
    | none => kv))
  ++ u.filter (fun kv => (d.lookup kv.1).isNone)

/-- The merge step of `Session._load_settings` when a settings file is
supplied (session.py line 97): `settings = default_settings.update(user_settings)`.
In Python, `dict.update` mutates its receiver in place and the call
expression itself evaluates to `None`, so the name `settings` is bound to
`None` and the merged dictionary is discarded. A Python value that is either
a dict or `None` is embedded as an `Option`. -/
def loadSettingsMerged (default_settings user_settings : List (String × String)) :
    Option (List (String × String)) :=
  let _merged := dictUpdate default_settings user_settings
  none

/-- The later subscript of `settings` at the key "preferences" (session.py
line 107): subscripting `None` raises `TypeError`; subscripting a dict on a
missing key raises `KeyError`. -/
def settingsSubscript (settings : Option (List (String × String))) (key : String) :
    Except PyExc String :=
  match settings with
  | none => Except.error PyExc.typeError
  | some d =>
    match d.lookup key with
    | some v => Except.ok v
    | none => Except.error PyExc.keyError

/-- Modelled from the spec: the claimed key-by-key override semantics of the
settings merge — for every top-level key present in the user file the user
value, for every key absent from the user file the default value. -/
def specMergeLookup (defaults user : List (String × String)) (k : String) :
    Option String :=
  match user.lookup k with
  | some v => some v
  | none => defaults.lookup k

/-- The engine dispatch of `save_experiment` (utils.py lines 25-31): engine
"pickle" opens `output_str + ".pkl"` in text mode "w" (line 26) and then
calls `pickle.dump`, which writes bytes — under Python 3 (this repository
uses f-strings) that raises `TypeError` unconditionally, so the pickle
branch never completes a write (the `open` only leaves an empty truncated
file behind, with no pickled data). Engine "joblib" writes
`output_str + ".jl"`. Any other engine raises `ValueError` (line 31) before
any file is touched. The `Except.ok` value is the name of the file
successfully written. -/
def save_experiment (output_str : String) (engine : String) : Except PyExc String :=
  if engine = "pickle" then Except.error PyExc.typeError
  else if engine = "joblib" then Except.ok (output_str ++ ".jl")
  else Except.error PyExc.valueError

/-! ### The spec example scenario (section 8 of the spec) -/

/-- Event 0 of the spec example: trial 0, onset 0.0, "instruction", 5 frames. -/
def ev0 : Event := ⟨0, 0, "instruction", 0, "", 5⟩

/-- Event 1 of the spec example: trial 1, onset 2.0, "stim", 8 frames. -/
def ev1 : Event := ⟨1, 2, "stim", 1, "", 8⟩

/-- Event 2 of the spec example: trial 2, onset 2.05, "response", 0 frames. -/
def ev2 : Event := ⟨2, 41/20, "response", 1, "", 0⟩

/-- The event log of the spec example scenario. -/
def exEvents : List Event := [ev0, ev1, ev2]

/-- Finalized row 0 of the example: duration 2.0, shifted nr_frames 8. -/
def row0 : Row := ⟨0, 0, "instruction", 0, "", 8, 100, some 2⟩

/-- Finalized row 1 of the example: duration 104 - 2.05 = 101.95, nr_frames
from the live counter (13 in this instantiation). -/
def row1 : Row := ⟨1, 2, "stim", 1, "", 13, 102, some (2039/20)⟩

/-- Finalized row 2 of the example: a response row, null duration, logged
nr_frames kept. -/
def row2 : Row := ⟨2, 41/20, "response", 1, "", 0, 2041/20, none⟩

/-- The finalized table of the example with experiment_start_abs = 100,
experiment_stop_abs = 104 and live frame counter 13. -/
def exRows : List Row := [row0, row1, row2]

/-! ### Supporting lemmas -/

theorem length_diffDrop (xs : List ℚ) : (diffDrop xs).length = xs.length - 1 := by
  simp [diffDrop, List.length_zipWith, List.length_drop]

theorem diffDrop_cons_cons (a b : ℚ) (rest : List ℚ) :
    diffDrop (a :: b :: rest) = (b - a) :: diffDrop (b :: rest) := rfl

theorem diffDrop_getElem? (xs : List ℚ) : ∀ (k : Nat), k + 1 < xs.length →
    (diffDrop xs)[k]? = some (xs.getD (k + 1) 0 - xs.getD k 0) := by
  induction xs with
  | nil => intro k hk; simp at hk
  | cons a tail ih =>
    intro k hk
    cases tail with
    | nil => simp at hk
    | cons b rest =>
      rw [diffDrop_cons_cons]
      cases k with
      | zero => simp [List.getD]
      | succ k =>
        have hk2 : k + 1 < (b :: rest).length := by
          simp only [List.length_cons] at hk ⊢; omega
        rw [List.getElem?_cons_succ, ih k hk2]
        simp [List.getD]

theorem assignRows_getElem? (s : ℚ) :
    ∀ (evs : List Event) (durs : List ℚ) (frs : List Int) (i : Nat) (e : Event) (r : Row),
      evs[i]? = some e → (assignRows s evs durs frs)[i]? = some r →
      r.trial_nr = e.trial_nr ∧ r.onset = e.onset ∧ r.event_type = e.event_type ∧
      r.phase = e.phase ∧ r.response = e.response ∧
      r.onset_abs = e.onset + s ∧
      (e.event_type = "response" → r.duration = none ∧ r.nr_frames = e.nr_frames) := by
  intro evs
  induction evs with
  | nil => intro durs frs i e r he hr; simp at he
  | cons ev rest ih =>
    intro durs frs i e r he hr
    cases i with
    | zero =>
      rw [List.getElem?_cons_zero, Option.some.injEq] at he
      subst he
      cases hnr : isNonResp ev with
      | true =>
        simp only [assignRows, hnr, if_true] at hr
        rw [List.getElem?_cons_zero, Option.some.injEq] at hr
        subst hr
        refine ⟨rfl, rfl, rfl, rfl, rfl, rfl, ?_⟩
        intro hresp
        simp [isNonResp, hresp] at hnr
      | false =>
        simp only [assignRows, hnr, if_false, Bool.false_eq_true] at hr
        rw [List.getElem?_cons_zero, Option.some.injEq] at hr
        subst hr
        exact ⟨rfl, rfl, rfl, rfl, rfl, rfl, fun _ => ⟨rfl, rfl⟩⟩
    | succ i =>
      rw [List.getElem?_cons_succ] at he
      cases hnr : isNonResp ev with
      | true =>
        simp only [assignRows, hnr, if_true] at hr
        rw [List.getElem?_cons_succ] at hr
        exact ih _ _ i e r he hr
      | false =>
        simp only [assignRows, hnr, if_false, Bool.false_eq_true] at hr
        rw [List.getElem?_cons_succ] at hr
        exact ih _ _ i e r he hr

theorem assignRows_filter_columns (s : ℚ) :
    ∀ (evs : List Event) (durs : List ℚ) (frs : List Int),
      durs.length = (evs.filter isNonResp).length →
      frs.length = (evs.filter isNonResp).length →
      ((assignRows s evs durs frs).filter isNonRespRow).map Row.duration
          = durs.map some
      ∧ ((assignRows s evs durs frs).filter isNonRespRow).map Row.nr_frames = frs := by
  intro evs
  induction evs with
  | nil =>
    intro durs frs hd hf
    simp only [List.filter_nil, List.length_nil, List.length_eq_zero] at hd hf
    subst hd; subst hf
    simp [assignRows]
  | cons ev rest ih =>
    intro durs frs hd hf
    cases hnr : isNonResp ev with
    | true =>
      have hnr2 : ev.event_type ≠ "response" := by simpa [isNonResp] using hnr
      rw [List.filter_cons_of_pos hnr] at hd hf
      simp only [List.length_cons] at hd hf
      cases durs with
      | nil => simp at hd
      | cons d ds =>
        cases frs with
        | nil => simp at hf
        | cons fr fs =>
          simp only [List.length_cons, Nat.succ.injEq] at hd hf
          obtain ⟨h1, h2⟩ := ih ds fs hd hf
          simp [assignRows, hnr, List.filter_cons, isNonRespRow, hnr2, h1, h2]
    | false =>
      have hnr2 : ev.event_type = "response" := by simpa [isNonResp] using hnr
      rw [List.filter_cons_of_neg (by simp [hnr])] at hd hf
      obtain ⟨h1, h2⟩ := ih durs frs hd hf
      simp [assignRows, hnr, List.filter_cons, isNonRespRow, hnr2, h1, h2]

theorem closeLog_ok_elim {evs : List Event} {s t : ℚ} {f : Int} {rows : List Row}
    (hok : closeLog evs s t f = Except.ok rows) :
    ∃ lastEv, evs.getLast? = some lastEv ∧
      (evs.filter isNonResp).length ≠ 0 ∧
      (diffDrop ((evs.filter isNonResp).map Event.onset) ++ [t - lastEv.onset]).length
        = (evs.filter isNonResp).length ∧
      (((evs.filter isNonResp).map Event.nr_frames).drop 1 ++ [f]).length
        = (evs.filter isNonResp).length ∧
      rows = assignRows s evs
        (diffDrop ((evs.filter isNonResp).map Event.onset) ++ [t - lastEv.onset])
        (((evs.filter isNonResp).map Event.nr_frames).drop 1 ++ [f]) := by
  unfold closeLog at hok
  cases hl : evs.getLast? with
  | none => rw [hl] at hok; simp at hok
  | some lastEv =>
    rw [hl] at hok
    simp only at hok
    split at hok
    case isTrue h1 =>
      split at hok
      case isTrue h2 =>
        refine ⟨lastEv, rfl, ?_, h1, h2, (Except.ok.inj hok).symm⟩
        rw [List.length_append, List.length_singleton] at h1
        omega
      case isFalse h2 => simp at hok
    case isFalse h1 => simp at hok

/-! ### Claim theorems -/

/-- C1: for every finalized event log, among the sub-sequence of events whose
event_type is not "response" (in original order, length n), the duration
assigned to element k equals onset[k+1] - onset[k] exactly, for every k from
0 to n-2. -/
theorem C1_duration_is_forward_onset_diff (evs : List Event) (s t : ℚ) (f : Int)
    (rows : List Row) (k : Nat)
    (hok : closeLog evs s t f = Except.ok rows)
    (hk : k + 1 < (evs.filter isNonResp).length) :
    ((rows.filter isNonRespRow).map Row.duration)[k]?
      = some (some ((((evs.filter isNonResp).map Event.onset).getD (k + 1) 0)
                  - (((evs.filter isNonResp).map Event.onset).getD k 0))) := by
  obtain ⟨lastEv, hl, hm, h1, h2, hrows⟩ := closeLog_ok_elim hok
  subst hrows
  obtain ⟨hdur, hfr⟩ := assignRows_filter_columns s evs _ _ h1 h2
  rw [hdur, List.getElem?_map]
  have hklt : k < (diffDrop ((evs.filter isNonResp).map Event.onset)).length := by
    rw [length_diffDrop, List.length_map]; omega
  rw [List.getElem?_append_left hklt,
    diffDrop_getElem? _ k (by rw [List.length_map]; exact hk)]
  rfl

/-- C2: for every non-empty finalized event log with at least one
non-response event, the duration assigned to the last non-response event
equals experiment_stop_abs minus the onset of the last event of the overall
log (not necessarily the last non-response event). -/
theorem C2_last_duration_stop_minus_overall_last_onset (evs : List Event)
    (s t : ℚ) (f : Int) (rows : List Row) (lastEv : Event)
    (hlast : evs.getLast? = some lastEv)
    (_hnr : evs.filter isNonResp ≠ [])
    (hok : closeLog evs s t f = Except.ok rows) :
    ((rows.filter isNonRespRow).map Row.duration).getLast?
      = some (some (t - lastEv.onset)) := by
  obtain ⟨lastEv2, hl2, hm, h1, h2, hrows⟩ := closeLog_ok_elim hok
  rw [hlast, Option.some.injEq] at hl2
  subst hl2
  subst hrows
  obtain ⟨hdur, _⟩ := assignRows_filter_columns s evs _ _ h1 h2
  rw [hdur]
  simp only [List.map_append, List.map_cons, List.map_nil]
  exact List.getLast?_concat _

/-- C3: in every finalized event log, every event whose event_type is
"response" has a null duration in the output table, regardless of position. -/
theorem C3_response_rows_null_duration (evs : List Event) (s t : ℚ) (f : Int)
    (rows : List Row) (i : Nat) (e : Event) (r : Row)
    (hok : closeLog evs s t f = Except.ok rows)
    (he : evs[i]? = some e) (hr : rows[i]? = some r)
    (hresp : e.event_type = "response") :
    r.duration = none := by
  obtain ⟨lastEv, hl, hm, h1, h2, hrows⟩ := closeLog_ok_elim hok
  subst hrows
  exact ((assignRows_getElem? s evs _ _ i e r he hr).2.2.2.2.2.2 hresp).1

/-- C4: in every finalized event log, every event (response or not) gets
onset_abs equal to its onset plus experiment_start_abs, exactly. -/
theorem C4_onset_abs_is_onset_plus_start (evs : List Event) (s t : ℚ) (f : Int)
    (rows : List Row) (i : Nat) (e : Event) (r : Row)
    (hok : closeLog evs s t f = Except.ok rows)
    (he : evs[i]? = some e) (hr : rows[i]? = some r) :
    r.onset_abs = e.onset + s := by
  obtain ⟨lastEv, hl, hm, h1, h2, hrows⟩ := closeLog_ok_elim hok
  subst hrows
  exact (assignRows_getElem? s evs _ _ i e r he hr).2.2.2.2.2.1

/-- C5: in every finalized event log, among the non-response sub-sequence of
length n, the finalized nr_frames of element k equals the originally logged
nr_frames of sub-sequence element k+1 for k from 0 to n-2, and the finalized
nr_frames of the last element equals the live frame counter sampled at close
time. -/
theorem C5_nr_frames_shift_and_live_counter (evs : List Event) (s t : ℚ)
    (f : Int) (rows : List Row)
    (hok : closeLog evs s t f = Except.ok rows) :
    (∀ k, k + 1 < (evs.filter isNonResp).length →
      ((rows.filter isNonRespRow).map Row.nr_frames)[k]?
        = ((evs.filter isNonResp)[k + 1]?).map Event.nr_frames)
    ∧ ((rows.filter isNonRespRow).map Row.nr_frames).getLast? = some f := by
  obtain ⟨lastEv, hl, hm, h1, h2, hrows⟩ := closeLog_ok_elim hok
  subst hrows
  obtain ⟨_, hfr⟩ := assignRows_filter_columns s evs _ _ h1 h2
  rw [hfr]
  constructor
  · intro k hk
    have hklt : k < (((evs.filter isNonResp).map Event.nr_frames).drop 1).length := by
      rw [List.length_drop, List.length_map]; omega
    rw [List.getElem?_append_left hklt, List.getElem?_drop, Nat.add_comm 1 k,
      List.getElem?_map]
  · exact List.getLast?_concat _

/-- C9: in every finalized event log, every event whose event_type is
"response" keeps its originally logged nr_frames value unchanged in the
output table. -/
theorem C9_response_rows_keep_nr_frames (evs : List Event) (s t : ℚ) (f : Int)
    (rows : List Row) (i : Nat) (e : Event) (r : Row)
    (hok : closeLog evs s t f = Except.ok rows)
    (he : evs[i]? = some e) (hr : rows[i]? = some r)
    (hresp : e.event_type = "response") :
    r.nr_frames = e.nr_frames := by
  obtain ⟨lastEv, hl, hm, h1, h2, hrows⟩ := closeLog_ok_elim hok
  subst hrows
  exact ((assignRows_getElem? s evs _ _ i e r he hr).2.2.2.2.2.2 hresp).2

theorem exEvents_close : closeLog exEvents 100 104 13 = Except.ok exRows := by
  with_unfolding_all rfl

/-! ### Witnesses -/

/-- Witness for C1 at the example scenario, k = 0. -/
theorem C1_witness :
    ((exRows.filter isNonRespRow).map Row.duration)[0]?
      = some (some ((((exEvents.filter isNonResp).map Event.onset).getD (0 + 1) 0)
                  - (((exEvents.filter isNonResp).map Event.onset).getD 0 0))) :=
  C1_duration_is_forward_onset_diff exEvents 100 104 13 exRows 0
    (by with_unfolding_all rfl) (by with_unfolding_all decide)

/-- Witness for C2 at the example scenario: the last non-response duration is
104 minus the overall last onset 2.05. -/
theorem C2_witness :
    ((exRows.filter isNonRespRow).map Row.duration).getLast?
      = some (some (104 - ev2.onset)) :=
  C2_last_duration_stop_minus_overall_last_onset exEvents 100 104 13 exRows ev2
    (by with_unfolding_all rfl) (by with_unfolding_all decide)
    (by with_unfolding_all rfl)

/-- Witness for C3 at the example scenario: the response row has null
duration. -/
theorem C3_witness : row2.duration = none :=
  C3_response_rows_null_duration exEvents 100 104 13 exRows 2 ev2 row2
    (by with_unfolding_all rfl) (by with_unfolding_all rfl)
    (by with_unfolding_all rfl) rfl

/-- Witness for C4 at the example scenario, row 0. -/
theorem C4_witness : row0.onset_abs = ev0.onset + 100 :=
  C4_onset_abs_is_onset_plus_start exEvents 100 104 13 exRows 0 ev0 row0
    (by with_unfolding_all rfl) (by with_unfolding_all rfl)
    (by with_unfolding_all rfl)

/-- Witness for C5 at the example scenario: the first non-response row takes
the second non-response event's logged nr_frames, and the last non-response
row takes the live counter value 13. -/
theorem C5_witness :
    (((exRows.filter isNonRespRow).map Row.nr_frames)[0]?
      = ((exEvents.filter isNonResp)[0 + 1]?).map Event.nr_frames)
    ∧ ((exRows.filter isNonRespRow).map Row.nr_frames).getLast? = some 13 :=
  ⟨(C5_nr_frames_shift_and_live_counter exEvents 100 104 13 exRows
      (by with_unfolding_all rfl)).1 0 (by with_unfolding_all decide),
   (C5_nr_frames_shift_and_live_counter exEvents 100 104 13 exRows
      (by with_unfolding_all rfl)).2⟩

/-- Witness for C9 at the example scenario: the response row keeps its
logged nr_frames. -/
theorem C9_witness : row2.nr_frames = ev2.nr_frames :=
  C9_response_rows_keep_nr_frames exEvents 100 104 13 exRows 2 ev2 row2
    (by with_unfolding_all rfl) (by with_unfolding_all rfl)
    (by with_unfolding_all rfl) rfl

/-- C6 (amended): finalizing an empty event log raises IndexError — the
indexing of the last onset of the empty onset list at line 186 — before any
output is produced; no output table (and hence no file) results. The
EmptyLogError named by the spec does not exist in the code. -/
theorem C6_empty_log_raises_index_error (s t : ℚ) (f : Int) :
    closeLog [] s t f = Except.error PyExc.indexError := rfl

/-- C6 counterexample: finalizing the empty log does not raise the
EmptyLogError the claim names; it raises IndexError instead. -/
theorem C6_counterexample :
    closeLog [] 0 0 0 = Except.error PyExc.indexError
    ∧ closeLog [] 0 0 0 ≠ Except.error PyExc.emptyLogError := by
  refine ⟨rfl, ?_⟩
  intro h
  rw [show closeLog ([] : List Event) 0 0 0 = Except.error PyExc.indexError from rfl] at h
  exact PyExc.noConfusion (Except.error.inj h)

/-- C7 (code bug): with a user settings file supplied, line 97 binds
`settings` to the return value of `dict.update`, which is `None`, so no
merged mapping results at all and the subsequent preferences subscript
raises TypeError. The in-place effect that the code discards (`dictUpdate`)
is exactly the key-by-key override the claim — and the TODO comment at the
top of session.py — describes: the user key "mouse" overrides, the absent
key "window" keeps its default. -/
theorem C7_settings_update_returns_none :
    loadSettingsMerged [("window", "w0"), ("mouse", "m0")] [("mouse", "m1")] = none
    ∧ settingsSubscript
        (loadSettingsMerged [("window", "w0"), ("mouse", "m0")] [("mouse", "m1")])
        "preferences" = Except.error PyExc.typeError
    ∧ dictUpdate [("window", "w0"), ("mouse", "m0")] [("mouse", "m1")]
        = [("window", "w0"), ("mouse", "m1")]
    ∧ specMergeLookup [("window", "w0"), ("mouse", "m0")] [("mouse", "m1")] "mouse"
        = some "m1"
    ∧ specMergeLookup [("window", "w0"), ("mouse", "m0")] [("mouse", "m1")] "window"
        = some "w0" := by
  refine ⟨rfl, rfl, ?_, ?_, ?_⟩ <;> with_unfolding_all rfl

/-- C8 counterexample: on the spec example scenario (start 100, stop 104),
row 1 of the finalized table has duration 104 - 2.05 = 101.95 — the stop
time minus the overall last onset — and not the 102.0 the claim states. -/
theorem C8_counterexample :
    closeLog exEvents 100 104 13 = Except.ok exRows
    ∧ row1.duration ≠ some 102 := by
  refine ⟨by with_unfolding_all rfl, ?_⟩
  intro h
  rw [show row1.duration = some (2039/20 : ℚ) from rfl, Option.some.injEq] at h
  norm_num at h

/-- C8 (amended): finalizing the spec example scenario with
experiment_start_abs = 100 and experiment_stop_abs = 104 yields row 0 with
duration 2.0 and nr_frames 8, row 1 with duration 101.95 (= 104 - 2.05,
the stop time minus the overall last onset), and row 2 (the response event)
with null duration and unchanged nr_frames, for any live frame counter
value f (which becomes row 1 nr_frames). -/
theorem C8_example_scenario (f : Int) :
    (closeLog exEvents 100 104 f).map
        (fun rows => (rows.map Row.duration, rows.map Row.nr_frames))
      = Except.ok ([some 2, some (2039/20), none], [8, f, 0]) := by
  with_unfolding_all rfl

/-- C10: save_experiment raises ValueError exactly when the engine argument
is neither "pickle" nor "joblib", and on that error path no file is written;
with engine "pickle" or "joblib" no ValueError is raised — though the pickle
branch fails anyway with TypeError (bytes written to a text-mode file),
while the joblib branch completes the write. -/
theorem C10_save_experiment_engine_dispatch (output_str engine : String) :
    (¬ (engine = "pickle" ∨ engine = "joblib")
        ↔ save_experiment output_str engine = Except.error PyExc.valueError)
    ∧ (engine = "pickle"
        → save_experiment output_str engine = Except.error PyExc.typeError)
    ∧ (engine = "joblib"
        → save_experiment output_str engine = Except.ok (output_str ++ ".jl"))
    ∧ ((engine = "pickle" ∨ engine = "joblib")
        ↔ save_experiment output_str engine ≠ Except.error PyExc.valueError) := by
  unfold save_experiment
  by_cases h1 : engine = "pickle"
  · subst h1; simp
  · by_cases h2 : engine = "joblib"
    · subst h2; simp [h1]
    · simp [h1, h2]

/-! ### The discarded in-place merge agrees with the claimed override semantics -/

theorem lookup_append (a b : List (String × String)) (k : String) :
    (a ++ b).lookup k = match a.lookup k with
      | some v => some v
      | none => b.lookup k := by
  induction a with
  | nil => simp [List.lookup]
  | cons kv rest ih =>
    obtain ⟨k1, v1⟩ := kv
    by_cases h : k = k1
    · subst h; simp [List.lookup]
    · simp only [List.cons_append, List.lookup]
      rw [show (k == k1) = false from by simpa using h]
      exact ih

theorem lookup_map_update (u : List (String × String)) (k : String) :
    ∀ (d : List (String × String)),
    ((d.map (fun kv => match u.lookup kv.1 with
        | some v => (kv.1, v)
        | none => kv)).lookup k)
      = match d.lookup k with
        | none => none
        | some v0 => match u.lookup k with
          | some v => some v
          | none => some v0 := by
  intro d
  induction d with
  | nil => simp [List.lookup]
  | cons kv rest ih =>
    obtain ⟨k1, v1⟩ := kv
    by_cases h : k = k1
    · subst h
      cases hu : u.lookup k <;>
        simp only [List.map_cons, hu, List.lookup, beq_self_eq_true]
    · cases hu : u.lookup k1 <;>
        · simp only [List.map_cons, hu, List.lookup]
          rw [show (k == k1) = false from by simpa using h]
          exact ih

theorem lookup_filter_fresh (d : List (String × String)) (k : String)
    (hd : d.lookup k = none) :
    ∀ (u : List (String × String)),
    (u.filter (fun kv => (d.lookup kv.1).isNone)).lookup k = u.lookup k := by
  intro u
  induction u with
  | nil => simp
  | cons kv rest ih =>
    obtain ⟨k1, v1⟩ := kv
    by_cases h : k = k1
    · subst h
      simp only [List.filter_cons, hd, Option.isNone_none, if_true, List.lookup,
        beq_self_eq_true]
    · cases hp : (d.lookup k1).isNone with
      | true =>
        simp only [List.filter_cons, hp, if_true, List.lookup]
        rw [show (k == k1) = false from by simpa using h]
        exact ih
      | false =>
        have hk : (k == k1) = false := by simpa using h
        simp only [List.filter_cons, hp, Bool.false_eq_true, if_false, List.lookup, hk]
        exact ih

theorem dictUpdate_lookup (d u : List (String × String)) (k : String) :
    (dictUpdate d u).lookup k = specMergeLookup d u k := by
  unfold dictUpdate specMergeLookup
  rw [lookup_append, lookup_map_update]
  cases hdk : d.lookup k with
  | some v0 => cases hu : u.lookup k <;> simp [hu]
  | none =>
    simp only
    rw [lookup_filter_fresh d k hdk]
    cases hu : u.lookup k <;> simp [hu, hdk]
